import Mathlib

/-!
Verification development for the MaidSafe-Common TCP transport, the
bounds-checked string wrapper and the type-tagged binary serialisation
harness.  Pure functions are translated directly from the C++ sources;
components whose implementation files are absent (the tcp `Connection`,
`Listener` and wire codec, and the binary archive) are modelled from the
specification, each such definition carrying a doc comment that says so.
Byte streams are `List Nat` with each element a byte value; sizes are `Nat`.
-/

namespace MaidSafe

/-- A transport message: an ordered sequence of bytes (`std::vector<unsigned char>`). -/
abbrev Message := List Nat

/-- Modelled from the spec: the 4-byte big-endian length header of the wire
framing codec (§4.1, §6); byte `i` is `len >> (8*(3-i)) mod 256`, exactly the
construction the test performs at part_001 lines 270-272. -/
def encodeHeader (len : Nat) : List Nat :=
  [len / 16777216 % 256, len / 65536 % 256, len / 256 % 256, len % 256]

/-- Modelled from the spec: big-endian decoding of a 4-byte length header
read off the wire (§4.1, §6). -/
def decodeHeader (b : List Nat) : Nat :=
  b.getD 0 0 * 16777216 + b.getD 1 0 * 65536 + b.getD 2 0 * 256 + b.getD 3 0

/-- Modelled from the spec: `encode(Message)` of the wire framing codec —
the 4-byte big-endian length field followed by exactly the payload bytes
(§4.1: "encode(Message) → byte stream = 4-byte big-endian unsigned length
field, followed by exactly that many payload bytes"). -/
def encode (m : Message) : List Nat :=
  encodeHeader m.length ++ m

/-- Modelled from the spec: `decode`, the inverse of `encode`, consuming
exactly `4 + length` bytes from the stream (§4.1).  Returns the decoded
message and the unconsumed remainder, or `none` when the stream is too
short. -/
def decode (stream : List Nat) : Option (Message × List Nat) :=
  if stream.length < 4 then none
  else if (stream.drop 4).length < decodeHeader (stream.take 4) then none
  else some ((stream.drop 4).take (decodeHeader (stream.take 4)),
             (stream.drop 4).drop (decodeHeader (stream.take 4)))

/-- Why a connection's receive loop stopped. -/
inductive CloseReason
  | oversizedLength
  | endOfStream
deriving DecidableEq, Repr

/-- Modelled from the spec: the connection receive loop (§4.2): read the
4-byte length header; if the declared length exceeds the ceiling, abandon
the loop and close without delivering that frame; otherwise read exactly
that many payload bytes, deliver the message, and repeat.  Any shortfall of
bytes (end of stream) also closes the connection.  The result is the list
of messages handed to `on_message_received`, in wire order, together with
the reason the loop ended (each ending fires `on_connection_closed` once). -/
def runReceive (maxSize : Nat) (stream : List Nat) : List Message × CloseReason :=
  if _h4 : stream.length < 4 then ([], CloseReason.endOfStream)
  else if maxSize < decodeHeader (stream.take 4) then ([], CloseReason.oversizedLength)
  else if (stream.drop 4).length < decodeHeader (stream.take 4) then
    ([], CloseReason.endOfStream)
  else
    ((stream.drop 4).take (decodeHeader (stream.take 4)) ::
        (runReceive maxSize ((stream.drop 4).drop (decodeHeader (stream.take 4)))).1,
     (runReceive maxSize ((stream.drop 4).drop (decodeHeader (stream.take 4)))).2)
termination_by stream.length
decreasing_by
  all_goals simp only [List.length_drop]
  all_goals omega

/-- Error a transport operation can report synchronously to its caller
(a thrown `maidsafe_error`). -/
inductive TransportError
  | messageSizeViolation
  | noEphemeralPort
deriving DecidableEq, Repr

/-- Connection lifecycle states (§4.2): `Created → Started → Closing → Closed`. -/
inductive ConnState
  | created
  | started
  | closing
  | closed
deriving DecidableEq, Repr

/-- Modelled from the spec: the observable state of one `Connection` — its
lifecycle state and its outbound queue of pending messages (§3, §4.2).  The
socket, partial frame and callbacks do not affect the claims below. -/
structure Connection where
  state : ConnState
  sendQueue : List Message
deriving DecidableEq, Repr

/-- Modelled from the spec: `Connection::Send` (§4.2): "if
`Message.length > MaxMessageSize`, fails immediately with a size-violation
error and has no observable effect on connection state or the outbound
queue.  Otherwise the message is appended to the outbound queue" — amended
where the repository's own test contradicts the spec's words: test
`BEH_InvalidMessageSizes` also expects `Send` of the EMPTY message to throw
a `maidsafe_error` (part_001 lines 223, 237-238 and 246), so a zero-length
message is rejected exactly like an over-limit one.  The ceiling is passed
as `maxSize` since the numeric value of `Connection::MaxMessageSize()` is
fixed but not given by the spec. -/
def Connection.Send (maxSize : Nat) (c : Connection) (m : Message) :
    Except TransportError Connection :=
  if m.length > maxSize ∨ m.length = 0 then
    Except.error TransportError.messageSizeViolation
  else Except.ok { c with sendQueue := c.sendQueue ++ [m] }

/-- Modelled from the spec: a bound `Listener`, identified by the port it is
bound to (§3, §4.3). -/
structure Listener where
  port : Nat
deriving DecidableEq, Repr

/-- Modelled from the spec: `Listener::ListeningPort()` — the actual bound
port, retrievable after construction (§4.3). -/
def Listener.ListeningPort (l : Listener) : Nat := l.port

/-- Modelled from the spec: `MakeListener` (§4.3, §6): binds a socket to
`requested`; a requested port of zero means "assign any available port"
(the OS's ephemeral pick is passed as `osPick`; `occupied` says which ports
are already bound) — amended where the repository's own test contradicts
the spec's words: test `BEH_UnavailablePort` (part_001 lines 196-218)
constructs a second listener on the first listener's own, occupied, port
expecting no exception, then dials the second listener's `ListeningPort()`
and must reach the second listener's callback for `server_promise` to be
fulfilled; so a failed bind of a nonzero requested port does not fail the
construction call but falls back to an OS-assigned ephemeral port.
Construction fails only when no port can be bound at all. -/
def MakeListener (occupied : Nat → Bool) (requested osPick : Nat) :
    Except TransportError Listener :=
  if requested ≠ 0 ∧ ¬occupied requested then Except.ok ⟨requested⟩
  else if osPick ≠ 0 ∧ ¬occupied osPick then Except.ok ⟨osPick⟩
  else Except.error TransportError.noEphemeralPort

/-- Result of `Messages::MessagesMatch` (part_001 line 52). -/
inductive Status
  | kSuccess
  | kMismatch
  | kTimedOut
deriving DecidableEq, Repr

/-- `std::sort` over `std::vector<Message>` (part_001 lines 55 and 67):
messages are compared lexicographically as byte vectors, which is the
lexicographic `≤` on `List Nat`. -/
def sortMessages (l : List Message) : List Message :=
  List.insertionSort (fun a b : List Nat => a ≤ b) l

/-- The deadline `Messages::WaitForEnoughMessages` waits until, in
microseconds from its start (part_001 lines 84-89): the sum of the byte
sizes of the expected messages, plus 1000000 µs (one second). -/
def waitDeadlineMicroseconds (expected : List Message) : Nat :=
  (expected.map List.length).sum + 1000000

/-- `Messages::MessagesMatch` (part_001 lines 61-95), with real time
abstracted: `received` is the list of messages that `AddMessage` has
recorded once waiting ends.  `WaitForEnoughMessages` returns
`ReceivedCount() == kExpectedMessages_.size()`; on failure the result is
`kTimedOut`; otherwise both sides are sorted and compared, giving
`kSuccess` on equality and `kMismatch` otherwise (the expected list was
sorted at construction, part_001 line 55). -/
def MessagesMatch (expected received : List Message) : Status :=
  if received.length ≠ expected.length then Status.kTimedOut
  else if sortMessages received = sortMessages expected then Status.kSuccess
  else Status.kMismatch

/-- The two `CommonErrors` values `BoundedString` can throw (part_000
lines 51 and 76/83/90). -/
inductive CommonError
  | invalid_string_size
  | invalid_conversion
deriving DecidableEq, Repr

/-- `detail::BoundedString<min, max>` (part_000 lines 46-107): a wrapper
holding `string_`.  The bounds checks live in the operations, not the
type. -/
structure BoundedString (min max : Nat) where
  string_ : String
deriving DecidableEq, Repr

/-- `BoundedString::OutwithBounds` (part_000 line 105):
`(min && (string_.size() < min)) || string_.size() > max`; the C++ `min &&`
treats the integer `min` as the truth value `min ≠ 0`. -/
def OutwithBounds (min max : Nat) (s : String) : Bool :=
  (decide (min ≠ 0) && decide (s.length < min)) || decide (s.length > max)

/-- `BoundedString::string()` (part_000 line 102). -/
def BoundedString.string {min max : Nat} (b : BoundedString min max) : String :=
  b.string_

/-- The `explicit BoundedString(const std::string&)` constructor (part_000
lines 49-52): store the string, then throw `invalid_string_size` if
`OutwithBounds()`. -/
def mkBoundedString (min max : Nat) (s : String) :
    Except CommonError (BoundedString min max) :=
  if OutwithBounds min max s then Except.error CommonError.invalid_string_size
  else Except.ok ⟨s⟩

/-- The cross-bounds converting constructor (part_000 lines 72-77): copy
`other.string()`, then throw `invalid_conversion` if `OutwithBounds()`. -/
def convertBoundedString {omin omax : Nat} (min max : Nat)
    (other : BoundedString omin omax) : Except CommonError (BoundedString min max) :=
  if OutwithBounds min max other.string_ then Except.error CommonError.invalid_conversion
  else Except.ok ⟨other.string_⟩

/-- `friend void swap` (part_000 lines 54-56): exchange the two wrapped
strings; returns the post-states of (`first`, `second`). -/
def swapBoundedStrings {min max : Nat} (first second : BoundedString min max) :
    BoundedString min max × BoundedString min max :=
  (⟨second.string_⟩, ⟨first.string_⟩)

/-- The same-bounds `operator=(BoundedString other)` (part_000 lines 62-65):
copy-and-swap; `*this` ends up holding `other`'s string, no check, no
throw. -/
def assignSameBounds {min max : Nat} (_target other : BoundedString min max) :
    BoundedString min max :=
  ⟨other.string_⟩

/-- Outcome of an operation that mutates `*this` and may also throw:
`target` is the state `*this` is left in (normal or exceptional exit),
`thrown` the exception if one escaped. -/
structure AssignOutcome (min max : Nat) where
  target : BoundedString min max
  thrown : Option CommonError
deriving DecidableEq, Repr

/-- The template `operator=(BoundedString<other_min, other_max> other)`
(part_000 lines 86-92) at its ONLY instantiable specialisation,
`other_min = min` and `other_max = max`: for genuinely distinct bounds the
operator is uninstantiable, because the `swap(*this, other)` call at line
88 has no viable overload — the only candidates argument-dependent lookup
finds are the in-class friend `swap`s, each taking two references of one
single instantiation, and the converting constructor is `explicit` and
could not bind a non-const reference anyway.  At the same-bounds
specialisation the body is: `swap(*this, other)` — so `*this` holds
`other`'s string from that point on — then throw `invalid_conversion` if
`OutwithBounds()`. -/
def assignTemplateSameBounds {min max : Nat}
    (_target other : BoundedString min max) : AssignOutcome min max :=
  if OutwithBounds min max other.string_ then
    ⟨⟨other.string_⟩, some CommonError.invalid_conversion⟩
  else ⟨⟨other.string_⟩, none⟩

/-- The bounds invariant a live `BoundedString<min, max>` is meant to
satisfy: `(min = 0 ∨ min ≤ size)` and `size ≤ max` — exactly the negation
of `OutwithBounds`. -/
def boundsInvariant (min max : Nat) (b : BoundedString min max) : Prop :=
  (min = 0 ∨ min ≤ b.string_.length) ∧ b.string_.length ≤ max

instance (min max : Nat) (b : BoundedString min max) :
    Decidable (boundsInvariant min max b) := by
  unfold boundsInvariant; infer_instance

/-- Modelled from the spec: the cereal binary archive's encoding of the
64-bit size prefix of a `std::string` — 8 bytes, little-endian (the
repository ships only the archive's test, part_002; the archive itself,
`serialisation/binary_archive.h`, is absent from src). -/
def encodeNat64LE (n : Nat) : List Nat :=
  [n % 256, n / 256 % 256, n / 65536 % 256, n / 16777216 % 256,
   n / 4294967296 % 256, n / 1099511627776 % 256,
   n / 281474976710656 % 256, n / 72057594037927936 % 256]

/-- Modelled from the spec: little-endian decoding of the 8-byte size
prefix. -/
def decodeNat64LE (b : List Nat) : Nat :=
  b.getD 0 0 + b.getD 1 0 * 256 + b.getD 2 0 * 65536 + b.getD 3 0 * 16777216 +
  b.getD 4 0 * 4294967296 + b.getD 5 0 * 1099511627776 +
  b.getD 6 0 * 281474976710656 + b.getD 7 0 * 72057594037927936

/-- Modelled from the spec: the binary archive's encoding of a
`SerialisableTypeTag` (an integral type one byte wide) — its raw byte. -/
def serialiseTag (tag : Nat) : List Nat := [tag % 256]

/-- Modelled from the spec: the binary archive's encoding of a
`std::string` — the 64-bit size prefix followed by the raw bytes. -/
def serialiseStringData (s : List Nat) : List Nat :=
  encodeNat64LE s.length ++ s

/-- `Serialise` (part_002 lines 65-74): write the object's
`kSerialisableTypeTag`, then the object itself (whose `serialize` archives
its `data` string), into one byte vector. -/
def Serialise (tag : Nat) (data : List Nat) : List Nat :=
  serialiseTag tag ++ serialiseStringData data

/-- `TypeFromStream` (part_002 lines 76-83): read the leading tag from the
stream; returns the tag and the unconsumed remainder (`none` on an empty
stream). -/
def TypeFromStream : List Nat → Option (Nat × List Nat)
  | [] => none
  | t :: rest => some (t, rest)

/-- `Parse` (part_002 lines 85-93): read one archived `data` string from
the stream; returns the string's bytes and the unconsumed remainder. -/
def ParseData (stream : List Nat) : Option (List Nat × List Nat) :=
  if stream.length < 8 then none
  else
    let len := decodeNat64LE (stream.take 8)
    let rest := stream.drop 8
    if rest.length < len then none
    else some (rest.take len, rest.drop len)

/-- `struct Ping` (part_002 lines 35-43): tag `kPing`, `data` defaulting to
"Ping" (bytes 80,105,110,103). -/
structure Ping where
  data : List Nat := [80, 105, 110, 103]
deriving DecidableEq, Repr

/-- `Ping::kSerialisableTypeTag = MessageTypeTag::kPing = 0` (part_002
line 33, 36-37). -/
def Ping.kSerialisableTypeTag : Nat := 0

/-- `struct PingResponse` (part_002 lines 47-55): tag `kPingResponse`,
`data` defaulting to "PingResponse". -/
structure PingResponse where
  data : List Nat := [80, 105, 110, 103, 82, 101, 115, 112, 111, 110, 115, 101]
deriving DecidableEq, Repr

/-- `PingResponse::kSerialisableTypeTag = MessageTypeTag::kPingResponse = 1`
(part_002 line 33, 48-49). -/
def PingResponse.kSerialisableTypeTag : Nat := 1

/-! Helper lemmas shared by the claim theorems. -/

theorem outwithBounds_iff (min max : Nat) (s : String) :
    OutwithBounds min max s = true ↔ (min ≠ 0 ∧ s.length < min) ∨ max < s.length := by
  simp [OutwithBounds]

theorem outwithBounds_false_iff (min max : Nat) (s : String) :
    OutwithBounds min max s = false ↔ (min = 0 ∨ min ≤ s.length) ∧ s.length ≤ max := by
  rw [← Bool.not_eq_true, outwithBounds_iff]
  constructor
  · intro h
    push_neg at h
    omega
  · intro h
    push_neg
    omega

theorem boundsInvariant_iff_not_outwithBounds (min max : Nat) (b : BoundedString min max) :
    boundsInvariant min max b ↔ OutwithBounds min max b.string_ = false := by
  rw [outwithBounds_false_iff, boundsInvariant]

theorem decodeNat64LE_encodeNat64LE (n : Nat) (h : n < 2 ^ 64) :
    decodeNat64LE (encodeNat64LE n) = n := by
  simp only [encodeNat64LE, decodeNat64LE, List.getD, List.get?, Option.getD_some]
  omega

theorem encodeNat64LE_length (n : Nat) : (encodeNat64LE n).length = 8 := rfl

theorem parseData_serialiseStringData (s : List Nat) (h : s.length < 2 ^ 64) :
    ParseData (serialiseStringData s) = some (s, []) := by
  have hlen : (serialiseStringData s).length = 8 + s.length := by
    simp [serialiseStringData, encodeNat64LE]
    omega
  have htake : (serialiseStringData s).take 8 = encodeNat64LE s.length :=
    List.take_left' (encodeNat64LE_length s.length)
  have hdrop : (serialiseStringData s).drop 8 = s :=
    List.drop_left' (encodeNat64LE_length s.length)
  rw [ParseData]
  rw [if_neg (by omega)]
  simp only [htake, hdrop, decodeNat64LE_encodeNat64LE s.length h]
  rw [if_neg (by omega)]
  simp

/-! Claim theorems. -/

/-- C8: `BoundedString<min, max>(s)` throws `invalid_string_size` exactly
when `(min > 0 ∧ size(s) < min) ∨ size(s) > max`; otherwise it succeeds and
`string()` returns `s` unchanged (so with `min = 0` every string up to
`max`, the empty string included, is accepted). -/
theorem C8_ctor_bounds (min max : Nat) (s : String) :
    (mkBoundedString min max s = Except.error CommonError.invalid_string_size ↔
      (0 < min ∧ s.length < min) ∨ max < s.length) ∧
    (¬((0 < min ∧ s.length < min) ∨ max < s.length) →
      ∃ b : BoundedString min max,
        mkBoundedString min max s = Except.ok b ∧ b.string = s) := by
  constructor
  · rw [mkBoundedString]
    split_ifs with h
    · rw [outwithBounds_iff] at h
      simp only [true_iff]
      omega
    · rw [Bool.not_eq_true, outwithBounds_false_iff] at h
      simp only [reduceCtorEq, false_iff]
      omega
  · intro h
    refine ⟨⟨s⟩, ?_, rfl⟩
    rw [mkBoundedString, if_neg ?_]
    rw [Bool.not_eq_true, outwithBounds_false_iff]
    omega

/-- Witness for C8 at concrete inputs: `BoundedString<1,2>("abc")` throws
`invalid_string_size`, and `BoundedString<0,5>("")` succeeds with
`string() = ""`. -/
theorem C8_ctor_bounds_witness :
    mkBoundedString 1 2 "abc" = Except.error CommonError.invalid_string_size ∧
    ∃ b : BoundedString 0 5, mkBoundedString 0 5 "" = Except.ok b ∧ b.string = "" :=
  ⟨(C8_ctor_bounds 1 2 "abc").1.mpr (by decide),
   (C8_ctor_bounds 0 5 "").2 (by decide)⟩

/-- C9: the bounds invariant holds for every live `BoundedString<min, max>`
after every operation of the program completes, normally or by exception:
the checked constructors yield only in-bounds objects, and their throwing
paths create no live object at all; swap and the same-bounds assignment
transfer strings between in-bounds same-bounds objects; and the template
assignment operator — which for genuinely distinct bounds is uninstantiable
(its `swap(*this, other)` call has no viable overload, see
`assignTemplateSameBounds`), so it exists only at the object's own
bounds — never reaches its `invalid_conversion` throw when given an
in-bounds source (`thrown = none`), leaving the target in-bounds; in
particular its throwing path leaves no live object out of bounds, since
that path is never executed. -/
theorem C9_invariant_preserved (min max omin omax : Nat) (s : String)
    (t o2 : BoundedString min max) (o : BoundedString omin omax) :
    (∀ b, mkBoundedString min max s = Except.ok b → boundsInvariant min max b) ∧
    (∀ b, convertBoundedString min max o = Except.ok b → boundsInvariant min max b) ∧
    (boundsInvariant min max t → boundsInvariant min max o2 →
      boundsInvariant min max (swapBoundedStrings t o2).1 ∧
      boundsInvariant min max (swapBoundedStrings t o2).2 ∧
      boundsInvariant min max (assignSameBounds t o2)) ∧
    (boundsInvariant min max o2 →
      (assignTemplateSameBounds t o2).thrown = none ∧
      boundsInvariant min max (assignTemplateSameBounds t o2).target) := by
  refine ⟨?_, ?_, ?_, ?_⟩
  · intro b hb
    rw [mkBoundedString] at hb
    split_ifs at hb with h
    all_goals cases hb
    rw [boundsInvariant_iff_not_outwithBounds]
    exact Bool.eq_false_iff.mpr h
  · intro b hb
    rw [convertBoundedString] at hb
    split_ifs at hb with h
    all_goals cases hb
    rw [boundsInvariant_iff_not_outwithBounds]
    exact Bool.eq_false_iff.mpr h
  · intro ht ho
    exact ⟨ho, ht, ho⟩
  · intro ho
    have hfalse : OutwithBounds min max o2.string_ = false :=
      (boundsInvariant_iff_not_outwithBounds min max o2).mp ho
    rw [assignTemplateSameBounds, if_neg (by simp [hfalse])]
    exact ⟨rfl, ho⟩

/-- Witness for C9 at concrete inputs: within `BoundedString<1,5>`, the
same-bounds assignment of "ab" into "abc" preserves the invariant, and the
template assignment at its instantiable (same-bounds) specialisation does
not throw and leaves its target in-bounds. -/
theorem C9_invariant_preserved_witness :
    boundsInvariant 1 5 (assignSameBounds (⟨"abc"⟩ : BoundedString 1 5) ⟨"ab"⟩) ∧
    (assignTemplateSameBounds (⟨"abc"⟩ : BoundedString 1 5) ⟨"ab"⟩).thrown = none ∧
    boundsInvariant 1 5
      (assignTemplateSameBounds (⟨"abc"⟩ : BoundedString 1 5) ⟨"ab"⟩).target := by
  have h := C9_invariant_preserved 1 5 1 5 "x" ⟨"abc"⟩ ⟨"ab"⟩ ⟨"a"⟩
  exact ⟨(h.2.2.1 (by decide) (by decide)).2.2,
         (h.2.2.2 (by decide)).1, (h.2.2.2 (by decide)).2⟩

/-- C10: type-tagged serialisation round-trips for `Ping` and
`PingResponse`: from the bytes of `Serialise(x)`, `TypeFromStream` yields
`x`'s `kSerialisableTypeTag`, and `Parse` on the remaining stream yields
back `x`'s `data` field (consuming the whole stream). -/
theorem C10_roundtrip (p : Ping) (q : PingResponse)
    (hp : p.data.length < 2 ^ 64) (hq : q.data.length < 2 ^ 64) :
    (TypeFromStream (Serialise Ping.kSerialisableTypeTag p.data) =
      some (Ping.kSerialisableTypeTag, serialiseStringData p.data) ∧
     ParseData (serialiseStringData p.data) = some (p.data, [])) ∧
    (TypeFromStream (Serialise PingResponse.kSerialisableTypeTag q.data) =
      some (PingResponse.kSerialisableTypeTag, serialiseStringData q.data) ∧
     ParseData (serialiseStringData q.data) = some (q.data, [])) := by
  refine ⟨⟨?_, parseData_serialiseStringData p.data hp⟩,
          ⟨?_, parseData_serialiseStringData q.data hq⟩⟩
  · rfl
  · rfl

/-- Witness for C10 at the default-constructed values of the test
(part_002 lines 96-110): data "Ping" for `Ping`, "PingResponse" for
`PingResponse`. -/
theorem C10_roundtrip_witness :
    (TypeFromStream (Serialise Ping.kSerialisableTypeTag (Ping.data {})) =
      some (Ping.kSerialisableTypeTag, serialiseStringData (Ping.data {})) ∧
     ParseData (serialiseStringData (Ping.data {})) = some (Ping.data {}, [])) ∧
    (TypeFromStream (Serialise PingResponse.kSerialisableTypeTag (PingResponse.data {})) =
      some (PingResponse.kSerialisableTypeTag,
            serialiseStringData (PingResponse.data {})) ∧
     ParseData (serialiseStringData (PingResponse.data {})) =
      some (PingResponse.data {}, [])) :=
  C10_roundtrip {} {} (by decide) (by decide)

/-- C1: `Send` of a message longer than the ceiling fails immediately and
synchronously with the size-violation error, has no observable effect on
the connection's state or outbound queue (the failing call returns the
error without producing a changed connection), and the same, untouched,
connection still accepts every subsequent valid `Send` — which appends to
the queue exactly as it would have without the failed call.  "Valid" is
the transport's own acceptance condition: nonzero length and at most the
ceiling (the empty message is rejected by the code's test, see C4). -/
theorem C1_send_oversized (maxSize : Nat) (c : Connection) (m : Message)
    (h : maxSize < m.length) :
    Connection.Send maxSize c m = Except.error TransportError.messageSizeViolation ∧
    ∀ m' : Message, 0 < m'.length → m'.length ≤ maxSize →
      Connection.Send maxSize c m' =
        Except.ok { c with sendQueue := c.sendQueue ++ [m'] } := by
  constructor
  · rw [Connection.Send, if_pos (by omega)]
  · intro m' h0 h'
    rw [Connection.Send, if_neg (by omega)]

/-- Witness for C1: with ceiling 2, sending `[1,2,3]` on a started
connection with an empty queue errors, and a subsequent `Send` of `[5]` on
the same connection succeeds and queues it. -/
theorem C1_send_oversized_witness :
    Connection.Send 2 ⟨ConnState.started, []⟩ [1, 2, 3] =
      Except.error TransportError.messageSizeViolation ∧
    Connection.Send 2 ⟨ConnState.started, []⟩ [5] =
      Except.ok ⟨ConnState.started, [[5]]⟩ :=
  ⟨(C1_send_oversized 2 ⟨ConnState.started, []⟩ [1, 2, 3] (by decide)).1,
   (C1_send_oversized 2 ⟨ConnState.started, []⟩ [1, 2, 3] (by decide)).2
     [5] (by decide) (by decide)⟩

/-- C4 counterexample: the claim says `Send` accepts EVERY message of
length at most the ceiling, the empty message included; but the
repository's own test `BEH_InvalidMessageSizes` expects
`Send` of the empty message to throw a `maidsafe_error` (part_001 lines
223, 237-238 and 246) — here, with ceiling 5, sending the empty message on
a started connection errors instead of being accepted. -/
theorem C4_counterexample :
    Connection.Send 5 ⟨ConnState.started, []⟩ [] =
      Except.error TransportError.messageSizeViolation := rfl

/-- C4 (amended): every message with `1 ≤ length ≤ MaxMessageSize` is
accepted by `Send` — the call succeeds and appends the message to the
outbound queue — while the empty (zero-length) message is rejected with
the same synchronous size-violation error as an over-limit one. -/
theorem C4_send_accepts_amended (maxSize : Nat) (c : Connection) (m : Message)
    (h0 : 0 < m.length) (h : m.length ≤ maxSize) :
    Connection.Send maxSize c m =
      Except.ok { c with sendQueue := c.sendQueue ++ [m] } ∧
    Connection.Send maxSize c [] =
      Except.error TransportError.messageSizeViolation := by
  constructor
  · rw [Connection.Send, if_neg (by omega)]
  · rw [Connection.Send, if_pos (by simp)]

/-- Witness for C4 (amended): with ceiling 3, a 3-byte message is accepted
and queued, while the empty message errors. -/
theorem C4_send_accepts_amended_witness :
    Connection.Send 3 ⟨ConnState.started, []⟩ [1, 2, 3] =
      Except.ok ⟨ConnState.started, [[1, 2, 3]]⟩ ∧
    Connection.Send 3 ⟨ConnState.started, []⟩ [] =
      Except.error TransportError.messageSizeViolation :=
  C4_send_accepts_amended 3 ⟨ConnState.started, []⟩ [1, 2, 3] (by decide) (by decide)

/-- C5 counterexample: the claim says constructing a listener on a port
already occupied by another listener fails the construction call rather
than succeeding on a different port; but the repository's own test
`BEH_UnavailablePort` (part_001 lines 196-218) constructs a listener on an
occupied port with no exception expected and then successfully dials the
port that listener reports — here, with 7777 occupied and ephemeral pick
49152, construction succeeds and `ListeningPort()` returns 49152, a
different port. -/
theorem C5_counterexample :
    MakeListener (fun p => p == 7777) 7777 49152 = Except.ok ⟨49152⟩ ∧
    (Listener.mk 49152).ListeningPort ≠ 7777 := ⟨rfl, by decide⟩

/-- C5 (amended): requested port 0 binds the OS-assigned ephemeral port,
retrievable via `ListeningPort()`; a free nonzero requested port binds
exactly that port; an occupied nonzero requested port does NOT fail the
construction — it falls back to the OS-assigned ephemeral port, also
retrievable via `ListeningPort()`; and every successfully constructed
listener reports a nonzero, previously free port. -/
theorem C5_listener_ports_amended (occupied : Nat → Bool) (requested osPick : Nat) :
    (requested ≠ 0 → occupied requested = false →
      MakeListener occupied requested osPick = Except.ok ⟨requested⟩) ∧
    (occupied requested = true → osPick ≠ 0 → occupied osPick = false →
      MakeListener occupied requested osPick = Except.ok ⟨osPick⟩) ∧
    (requested = 0 → osPick ≠ 0 → occupied osPick = false →
      MakeListener occupied requested osPick = Except.ok ⟨osPick⟩) ∧
    (∀ l, MakeListener occupied requested osPick = Except.ok l →
      l.ListeningPort ≠ 0 ∧ occupied l.ListeningPort = false) := by
  refine ⟨?_, ?_, ?_, ?_⟩
  · intro hreq hfree
    rw [MakeListener, if_pos ⟨hreq, by simp [hfree]⟩]
  · intro hocc hpick hfree
    rw [MakeListener, if_neg (by simp [hocc]), if_pos ⟨hpick, by simp [hfree]⟩]
  · intro hreq hpick hfree
    rw [MakeListener, if_neg (by simp [hreq]), if_pos ⟨hpick, by simp [hfree]⟩]
  · intro l hl
    rw [MakeListener] at hl
    split_ifs at hl with h1 h2
    all_goals cases hl
    · exact ⟨h1.1, by simpa using h1.2⟩
    · exact ⟨h2.1, by simpa using h2.2⟩

/-- Witness for C5 (amended): with 7777 occupied — requesting free 8888
binds 8888; requesting occupied 7777 with pick 49152 binds 49152;
requesting 0 with pick 49152 binds 49152. -/
theorem C5_listener_ports_amended_witness :
    MakeListener (fun p => p == 7777) 8888 49152 = Except.ok ⟨8888⟩ ∧
    MakeListener (fun p => p == 7777) 7777 49152 = Except.ok ⟨49152⟩ ∧
    MakeListener (fun p => p == 7777) 0 49152 = Except.ok ⟨49152⟩ :=
  ⟨(C5_listener_ports_amended (fun p => p == 7777) 8888 49152).1
     (by decide) (by decide),
   (C5_listener_ports_amended (fun p => p == 7777) 7777 49152).2.1
     (by decide) (by decide) (by decide),
   (C5_listener_ports_amended (fun p => p == 7777) 0 49152).2.2.1
     rfl (by decide) (by decide)⟩

theorem sortMessages_eq_iff_perm (r e : List Message) :
    sortMessages r = sortMessages e ↔ r.Perm e := by
  constructor
  · intro h
    rw [sortMessages, sortMessages] at h
    have hr := List.perm_insertionSort (fun a b : List Nat => a ≤ b) r
    have he := List.perm_insertionSort (fun a b : List Nat => a ≤ b) e
    exact (h ▸ hr.symm).trans he
  · intro h
    exact List.eq_of_perm_of_sorted
      ((List.perm_insertionSort _ r).trans (h.trans (List.perm_insertionSort _ e).symm))
      (List.sorted_insertionSort _ r) (List.sorted_insertionSort _ e)

/-- C7: `Messages::MessagesMatch` is order-insensitive and its wait is
size-bounded: with `r` the messages recorded when waiting ends, the result
is `kSuccess` iff `r` equals the expected list `e` as a multiset (both
sides sorted then compared, so any permutation succeeds), `kTimedOut` iff
the received count differs from `|e|` (too few by the deadline, or too
many), and `kMismatch` otherwise; the deadline waited until is the sum of
the byte sizes of `e` in microseconds plus one second (1000000 µs). -/
theorem C7_messagesMatch_characterisation (e r : List Message) :
    (MessagesMatch e r = Status.kSuccess ↔ r.Perm e) ∧
    (MessagesMatch e r = Status.kTimedOut ↔ r.length ≠ e.length) ∧
    (MessagesMatch e r = Status.kMismatch ↔ r.length = e.length ∧ ¬r.Perm e) ∧
    waitDeadlineMicroseconds e = (e.map List.length).sum + 1000000 := by
  refine ⟨?_, ?_, ?_, rfl⟩
  · rw [MessagesMatch]
    split_ifs with h1 h2
    · simp only [reduceCtorEq, false_iff]
      intro hperm
      exact h1 hperm.length_eq
    · simp only [true_iff]
      exact (sortMessages_eq_iff_perm r e).mp h2
    · simp only [reduceCtorEq, false_iff]
      intro hperm
      exact h2 ((sortMessages_eq_iff_perm r e).mpr hperm)
  · rw [MessagesMatch]
    split_ifs with h1 h2
    · simp [h1]
    · simp [h1]
    · simp [h1]
  · rw [MessagesMatch]
    split_ifs with h1 h2
    · simp only [reduceCtorEq, false_iff]
      intro hc
      exact h1 hc.1
    · simp only [reduceCtorEq, false_iff]
      intro hc
      exact hc.2 ((sortMessages_eq_iff_perm r e).mp h2)
    · simp only [true_iff]
      exact ⟨by omega, fun hperm => h2 ((sortMessages_eq_iff_perm r e).mpr hperm)⟩

/-- Witness for C7: a permuted arrival of the expected messages matches as
`kSuccess`; too few arrivals give `kTimedOut`; an equal count with a wrong
byte gives `kMismatch`; the deadline for those two expected messages (3
bytes total) is 1000003 µs. -/
theorem C7_messagesMatch_witness :
    MessagesMatch [[1], [2, 3]] [[2, 3], [1]] = Status.kSuccess ∧
    MessagesMatch [[1], [2, 3]] [[2, 3]] = Status.kTimedOut ∧
    MessagesMatch [[1], [2, 3]] [[2, 3], [2]] = Status.kMismatch ∧
    waitDeadlineMicroseconds [[1], [2, 3]] = 1000003 :=
  ⟨(C7_messagesMatch_characterisation [[1], [2, 3]] [[2, 3], [1]]).1.mpr (by decide),
   (C7_messagesMatch_characterisation [[1], [2, 3]] [[2, 3]]).2.1.mpr (by decide),
   (C7_messagesMatch_characterisation [[1], [2, 3]] [[2, 3], [2]]).2.2.1.mpr
     (by decide),
   by decide⟩

theorem encodeHeader_length (len : Nat) : (encodeHeader len).length = 4 := rfl

theorem decodeHeader_encodeHeader (len : Nat) (h : len < 2 ^ 32) :
    decodeHeader (encodeHeader len) = len := by
  simp only [encodeHeader, decodeHeader, List.getD, List.get?, Option.getD_some]
  omega

/-- C3: the wire encoding of a message `m` is the 4-byte big-endian header
holding `length(m)` — byte `i` of the frame, `i < 4`, equals
`length(m) >> (8*(3-i)) mod 256` — followed by exactly the payload bytes of
`m`; decoding a stream that starts with this frame consumes exactly
`4 + length(m)` bytes, recovers `m`, and leaves any concatenated following
bytes (the next frames) untouched — so frames are concatenated per message
with no other framing bytes.  `length(m) < 2^32` is what the 4-byte header
can carry; every legal message (length up to the ceiling) satisfies it. -/
theorem C3_wire_format (m : Message) (extra : List Nat) (h : m.length < 2 ^ 32) :
    (encode m).length = 4 + m.length ∧
    (∀ i, i < 4 → (encode m).getD i 0 = m.length / 2 ^ (8 * (3 - i)) % 256) ∧
    (encode m).drop 4 = m ∧
    decode (encode m ++ extra) = some (m, extra) := by
  refine ⟨?_, ?_, ?_, ?_⟩
  · simp [encode, encodeHeader]
    omega
  · intro i hi
    interval_cases i <;>
      simp [encode, encodeHeader, List.getD]
  · rw [encode]
    exact List.drop_left' (encodeHeader_length m.length)
  · rw [encode, List.append_assoc, decode]
    rw [if_neg (by simp [encodeHeader])]
    rw [List.take_left' (encodeHeader_length m.length),
        List.drop_left' (encodeHeader_length m.length),
        decodeHeader_encodeHeader m.length h]
    rw [if_neg (by simp)]
    rw [List.take_left' rfl, List.drop_left' rfl]

/-- Witness for C3 at `m = [7, 8, 9]` followed by two stray bytes: the
frame is 7 bytes, its header bytes are `0,0,0,3`, its payload is `m`, and
decoding consumes exactly the frame and returns the stray bytes. -/
theorem C3_wire_format_witness :
    (encode [7, 8, 9]).length = 4 + 3 ∧
    (encode [7, 8, 9]).getD 3 0 = 3 ∧
    (encode [7, 8, 9]).drop 4 = [7, 8, 9] ∧
    decode (encode [7, 8, 9] ++ [1, 2]) = some ([7, 8, 9], [1, 2]) :=
  ⟨(C3_wire_format [7, 8, 9] [1, 2] (by decide)).1,
   by
    have hb := (C3_wire_format [7, 8, 9] [1, 2] (by decide)).2.1 3 (by decide)
    simpa using hb,
   (C3_wire_format [7, 8, 9] [1, 2] (by decide)).2.2.1,
   (C3_wire_format [7, 8, 9] [1, 2] (by decide)).2.2.2⟩

/-- Modelled from the spec: a sequence of messages on the wire is their
frames concatenated, one frame per message, nothing else (§6: "repeated per
message, no connection-level handshake or framing beyond this"). -/
def encodeStream : List Message → List Nat
  | [] => []
  | m :: ms => encode m ++ encodeStream ms

theorem runReceive_cons_frame (maxSize : Nat) (m : Message) (rest : List Nat)
    (hm : m.length ≤ maxSize) (h32 : m.length < 2 ^ 32) :
    runReceive maxSize (encode m ++ rest) =
      (m :: (runReceive maxSize rest).1, (runReceive maxSize rest).2) := by
  rw [encode, List.append_assoc, runReceive]
  rw [dif_neg (by simp [encodeHeader])]
  rw [List.take_left' (encodeHeader_length m.length),
      decodeHeader_encodeHeader m.length h32,
      List.drop_left' (encodeHeader_length m.length)]
  rw [if_neg (by omega)]
  rw [if_neg (by simp)]
  rw [List.take_left' rfl, List.drop_left' rfl]

theorem runReceive_oversized (maxSize : Nat) (stream : List Nat)
    (h4 : 4 ≤ stream.length) (hover : maxSize < decodeHeader (stream.take 4)) :
    runReceive maxSize stream = ([], CloseReason.oversizedLength) := by
  rw [runReceive, dif_neg (by omega), if_pos hover]

/-- C2: when the incoming stream carries some legal frames followed by a
frame whose 4-byte header declares a length exceeding the ceiling, the
receive loop delivers exactly the earlier legal messages, abandons the loop
at the oversized header and closes with `oversizedLength` (the transition
toward `Closing` that fires `on_connection_closed`): neither the oversized
frame nor any of its payload bytes is ever delivered to
`on_message_received`. -/
theorem C2_oversized_header_closes (maxSize badLen : Nat) (valid : List Message)
    (junk : List Nat) (hvalid : ∀ v ∈ valid, v.length ≤ maxSize)
    (hbad : maxSize < badLen) (hbad32 : badLen < 2 ^ 32) :
    runReceive maxSize (encodeStream valid ++ (encodeHeader badLen ++ junk)) =
      (valid, CloseReason.oversizedLength) := by
  induction valid with
  | nil =>
    rw [encodeStream, List.nil_append]
    apply runReceive_oversized
    · simp [encodeHeader]
    · rw [List.take_left' (encodeHeader_length badLen),
          decodeHeader_encodeHeader badLen hbad32]
      exact hbad
  | cons m ms ih =>
    have hm : m.length ≤ maxSize := hvalid m (by simp)
    rw [encodeStream, List.append_assoc]
    rw [runReceive_cons_frame maxSize m _ hm (by omega)]
    rw [ih (fun v hv => hvalid v (by simp [hv]))]

/-- Witness for C2: with ceiling 10, one legal frame `[7]` followed by a
header declaring 11 and two stray bytes: only `[7]` is delivered and the
loop ends with `oversizedLength`. -/
theorem C2_oversized_header_closes_witness :
    runReceive 10 (encodeStream [[7]] ++ (encodeHeader 11 ++ [0, 0])) =
      ([[7]], CloseReason.oversizedLength) :=
  C2_oversized_header_closes 10 11 [[7]] [0, 0] (by decide) (by decide) (by decide)

/-- C6: a frame whose header understates the true payload size is not
detected: the receiver (a total function — it neither crashes nor hangs)
parses the truncated payload as a message and misinterprets the leftover
payload bytes as the start of the next header (here fewer than 4 remain,
so the loop ends as at end of stream), and the later comparison of the
expected message against the received one returns `kMismatch`. -/
theorem C6_understated_length (maxSize declared : Nat) (payload : Message)
    (hd : declared ≤ maxSize) (hlt : declared < payload.length)
    (hres : payload.length - declared < 4) (h32 : declared < 2 ^ 32) :
    runReceive maxSize (encodeHeader declared ++ payload) =
      ([payload.take declared], CloseReason.endOfStream) ∧
    MessagesMatch [payload]
        (runReceive maxSize (encodeHeader declared ++ payload)).1 =
      Status.kMismatch := by
  have hrun : runReceive maxSize (encodeHeader declared ++ payload) =
      ([payload.take declared], CloseReason.endOfStream) := by
    rw [runReceive, dif_neg (by simp [encodeHeader])]
    rw [List.take_left' (encodeHeader_length declared),
        decodeHeader_encodeHeader declared h32,
        List.drop_left' (encodeHeader_length declared)]
    rw [if_neg (by omega), if_neg (by omega)]
    rw [runReceive, dif_pos (by rw [List.length_drop]; omega)]
  have hne : ¬(sortMessages [payload.take declared] = sortMessages [payload]) := by
    intro heq
    rw [sortMessages_eq_iff_perm] at heq
    have h1 := List.perm_singleton.mp heq
    have h2 : payload.take declared = payload := by simpa using h1
    have h3 := congrArg List.length h2
    rw [List.length_take] at h3
    omega
  refine ⟨hrun, ?_⟩
  rw [hrun]
  rw [MessagesMatch, if_neg (by simp), if_neg hne]

/-- Witness for C6: ceiling 10, header declaring 5 on a 6-byte payload: the
receiver delivers the 5-byte truncation and the matcher reports
`kMismatch`. -/
theorem C6_understated_length_witness :
    runReceive 10 (encodeHeader 5 ++ [1, 2, 3, 4, 5, 6]) =
      ([[1, 2, 3, 4, 5, 6].take 5], CloseReason.endOfStream) ∧
    MessagesMatch [[1, 2, 3, 4, 5, 6]]
        (runReceive 10 (encodeHeader 5 ++ [1, 2, 3, 4, 5, 6])).1 =
      Status.kMismatch :=
  C6_understated_length 10 5 [1, 2, 3, 4, 5, 6] (by decide) (by decide)
    (by decide) (by decide)

end MaidSafe
